import Mathlib

/-!
Verification development for the `quantum-machine-catalog` repository.

The core under specification is the signal-sampling-and-drawing loop shared
by `src/dual_universe_branch_visual_canvas.jsx.js` (the dual-universe canvas),
`src/app.js` (the oscilloscope scope demo) and the binaural tone generator
(`src/unnamed/part_001`).  JavaScript numbers are modelled as real numbers
(`ℝ`), the `NaN` sentinel produced by the renderer's wrapper lambdas as
`Option.none`, and the stateful animation drivers as explicit state-passing
functions over small state records.
-/

namespace QMC

/-! ## Signal model of `src/dual_universe_branch_visual_canvas.jsx.js`

The React component keeps its model parameters in `useState` hooks; we
gather them into one record.  The default value of each field is the
initial value passed to the corresponding `useState` call. -/

structure Params where
  xMax : ℝ
  splitX : ℝ
  baseAmp : ℝ
  baseFreq : ℝ
  basePhase : ℝ
  u1Slope : ℝ
  u1Amp : ℝ
  u1Freq : ℝ
  u1Phase : ℝ
  u2Slope : ℝ
  u2Amp : ℝ
  u2Freq : ℝ
  u2Phase : ℝ

/-- The `useState` defaults of the component: `xMax=10, splitX=4,
`baseAmp=1.0, baseFreq=1.15, basePhase=0.0`, universe 1
`(slope, amp, freq, phase) = (0.35, 0.9, 0.95, 0.4)`, universe 2
`(-0.3, 0.75, 1.22, -0.2)`. -/
noncomputable def defaultParams : Params where
  xMax := 10
  splitX := 4
  baseAmp := 1.0
  baseFreq := 1.15
  basePhase := 0.0
  u1Slope := 0.35
  u1Amp := 0.9
  u1Freq := 0.95
  u1Phase := 0.4
  u2Slope := -0.3
  u2Amp := 0.75
  u2Freq := 1.22
  u2Phase := -0.2

/-- `baseY(x, t) = baseAmp * Math.sin(2 * Math.PI * baseFreq * (x / xMax) + basePhase + 0.6 * t)`. -/
noncomputable def baseY (p : Params) (x t : ℝ) : ℝ :=
  p.baseAmp * Real.sin (2 * Real.pi * p.baseFreq * (x / p.xMax) + p.basePhase + 0.6 * t)

/-- `junctionY(t) = baseY(splitX, t)`. -/
noncomputable def junctionY (p : Params) (t : ℝ) : ℝ :=
  baseY p p.splitX t

/-- The clamped denominator `Math.max(1e-6, xMax - splitX)` of the
normalized phase term shared by both post-split branch functions. -/
noncomputable def branchDenom (p : Params) : ℝ :=
  max 1e-6 (p.xMax - p.splitX)

/-- `u1Y(x, t) = junctionY(t) + u1Slope*dx + u1Amp*Math.sin(2πu1Freq*(dx/max(1e-6, xMax-splitX)) + u1Phase + 0.7t)`
with `dx = Math.max(0, x - splitX)`. -/
noncomputable def u1Y (p : Params) (x t : ℝ) : ℝ :=
  let dx := max 0 (x - p.splitX)
  junctionY p t + p.u1Slope * dx +
    p.u1Amp * Real.sin (2 * Real.pi * p.u1Freq * (dx / branchDenom p) + p.u1Phase + 0.7 * t)

/-- `u2Y(x, t) = junctionY(t) + u2Slope*dx + u2Amp*Math.sin(2πu2Freq*(dx/max(1e-6, xMax-splitX)) + u2Phase + 0.65t)`
with `dx = Math.max(0, x - splitX)`. -/
noncomputable def u2Y (p : Params) (x t : ℝ) : ℝ :=
  let dx := max 0 (x - p.splitX)
  junctionY p t + p.u2Slope * dx +
    p.u2Amp * Real.sin (2 * Real.pi * p.u2Freq * (dx / branchDenom p) + p.u2Phase + 0.65 * t)

/-! ### The renderer's wrapper samplers (from `render`)

`render` passes these lambdas to `drawCurve`:
`(x) => (x <= splitX ? baseY(x, t) : Number.NaN)` for the pre-split path and
`(x) => (x >= splitX ? uiY(x, t) : Number.NaN)` for the two branches.
`Number.NaN` is modelled as `Option.none`. -/

/-- Pre-split sampler: `x <= splitX ? baseY(x, t) : Number.NaN`. -/
noncomputable def preSample (p : Params) (t x : ℝ) : Option ℝ :=
  if x ≤ p.splitX then some (baseY p x t) else none

/-- Universe-1 sampler: `x >= splitX ? u1Y(x, t) : Number.NaN`. -/
noncomputable def u1Sample (p : Params) (t x : ℝ) : Option ℝ :=
  if p.splitX ≤ x then some (u1Y p x t) else none

/-- Universe-2 sampler: `x >= splitX ? u2Y(x, t) : Number.NaN`. -/
noncomputable def u2Sample (p : Params) (t x : ℝ) : Option ℝ :=
  if p.splitX ≤ x then some (u2Y p x t) else none

/-! ## `drawCurve` (pen-lift polyline drawing)

`drawCurve(ctx, map, sampler, color, fromX, toX)` walks a sequence of sample
abscissae, evaluates the sampler at each, and draws `moveTo`/`lineTo` calls
with a `penDown` flag that is cleared on every non-finite sample:

```
let penDown = false;
for (...) {
  const y = sampler(x);
  if (!Number.isFinite(y)) { penDown = false; continue; }
  const px = x2px(x); const py = y2px(y);
  if (!penDown) { ctx.moveTo(px, py); penDown = true; }
  else { ctx.lineTo(px, py); }
}
```

We model the observable output as the list of line segments the canvas path
accumulates (each `lineTo` joins the current pen position to the new point).
The pen state is `Option Pt`: `none` when the pen is lifted, `some p` when
the pen is down at `p`.  A non-finite sampler result is `Option.none` in the
sample list. -/

structure Pt where
  px : ℝ
  py : ℝ

/-- The loop body of `drawCurve`, folded over the sample list.  The second
argument is the pen state (`none` = pen up; `some p` = pen down at `p`).
A `none` sample lifts the pen; a finite sample either places the pen
(`moveTo`) or emits a segment (`lineTo`). -/
def drawCurveSegs (x2px y2px : ℝ → ℝ) :
    List (ℝ × Option ℝ) → Option Pt → List (Pt × Pt)
  | [], _ => []
  | (_, none) :: rest, _ => drawCurveSegs x2px y2px rest none
  | (x, some y) :: rest, none =>
      drawCurveSegs x2px y2px rest (some ⟨x2px x, y2px y⟩)
  | (x, some y) :: rest, some pen =>
      (pen, ⟨x2px x, y2px y⟩) :: drawCurveSegs x2px y2px rest (some ⟨x2px x, y2px y⟩)

/-- `drawCurve` starts its loop with the pen lifted (`penDown = false`). -/
def drawCurve (x2px y2px : ℝ → ℝ) (samples : List (ℝ × Option ℝ)) : List (Pt × Pt) :=
  drawCurveSegs x2px y2px samples none

/-- Specification-side description of the drawn segments: exactly one
segment for each adjacent pair of samples that are both finite. -/
def consecSegs (x2px y2px : ℝ → ℝ) (l : List (ℝ × Option ℝ)) : List (Pt × Pt) :=
  (l.zip l.tail).filterMap fun q =>
    match q with
    | ((x1, some y1), (x2, some y2)) =>
        some (⟨x2px x1, y2px y1⟩, ⟨x2px x2, y2px y2⟩)
    | _ => none

/-! ## Per-frame transform setup (from `render`)

```
ctx.setTransform(1, 0, 0, 1, 0, 0); // critical: reset any previous scaling
ctx.scale(dpr, dpr);
```

A canvas 2D accumulated transform is the affine matrix `(a, b, c, d, e, f)`
mapping `(x, y) ↦ (a·x + c·y + e, b·x + d·y + f)`. -/

structure Transform where
  a : ℝ
  b : ℝ
  c : ℝ
  d : ℝ
  e : ℝ
  f : ℝ

/-- `ctx.setTransform(1,0,0,1,0,0)`: replaces the accumulated transform by
the identity, regardless of the previous transform. -/
def setTransformIdentity (_T : Transform) : Transform :=
  ⟨1, 0, 0, 1, 0, 0⟩

/-- `ctx.scale(s, s)`: post-multiplies the current transform by a uniform
scaling matrix. -/
def scaleBy (T : Transform) (s : ℝ) : Transform :=
  ⟨T.a * s, T.b * s, T.c * s, T.d * s, T.e, T.f⟩

/-- The transform-reset-and-scale step of `render`: `setTransform(1,0,0,1,0,0)`
followed by `scale(dpr, dpr)`. -/
def transformSetup (dpr : ℝ) (T : Transform) : Transform :=
  scaleBy (setTransformIdentity T) dpr

/-- The coordinate mapping induced by an accumulated transform. -/
def applyTransform (T : Transform) (x y : ℝ) : ℝ × ℝ :=
  (T.a * x + T.c * y + T.e, T.b * x + T.d * y + T.f)

/-! ## Scope state machine of `src/app.js`

`app.js` keeps its state in closure-captured variables:
`running, glow, t, f1, f2, phase, noise, jam, lastTick` (with `dt = 0.016`
fixed).  We add a `pending` counter: the number of `requestAnimationFrame`
callbacks currently scheduled and not yet fired.  The `jam`/`calibrate`/
`glow` handlers are not needed by any claim (`jam` draws on `Math.random`);
we model the `start`, `pause`, `reset` and `safeStart` button handlers and
the `drawFrame` callback. -/

structure ScopeState where
  running : Bool
  glow : Bool
  jam : Bool
  t : ℝ
  noise : ℝ
  f1 : ℝ
  f2 : ℝ
  phase : ℝ
  lastTick : ℝ
  pending : ℕ

/-- Initial scope state:
`running = false, glow = false, t = 0, f1 = 1.2, f2 = 2.3, phase = Math.PI/3,
noise = 0.0, jam = false, lastTick = 0`, and no frame callback scheduled. -/
noncomputable def initScope : ScopeState where
  running := false
  glow := false
  jam := false
  t := 0
  noise := 0
  f1 := 1.2
  f2 := 2.3
  phase := Real.pi / 3
  lastTick := 0
  pending := 0

/-- `dt = 0.016` (fixed in `app.js`). -/
noncomputable def dt0 : ℝ := 0.016

/-- `#startBtn` handler: `if(!running){ running=true; requestAnimationFrame(drawFrame); }`. -/
def startClick (s : ScopeState) : ScopeState :=
  if s.running then s else { s with running := true, pending := s.pending + 1 }

/-- `#pauseBtn` handler: `running=false;` (the pending frame, if any, is
not cancelled). -/
def pauseClick (s : ScopeState) : ScopeState :=
  { s with running := false }

/-- `#resetBtn` handler: `t=0;`. -/
def resetClick (s : ScopeState) : ScopeState :=
  { s with t := 0 }

/-- `#safeStartBtn` handler: `running=true; requestAnimationFrame(drawFrame);`
(no `if(!running)` guard). -/
def safeStartClick (s : ScopeState) : ScopeState :=
  { s with running := true, pending := s.pending + 1 }

/-- The body of `drawFrame(ts)` as a state update:
`if(!running){ lastTick = 0; return; }` (no reschedule), otherwise the frame
is drawn, the diagnostic updates `lastTick` when `ts && ts - lastTick > 250`,
then `t += dt; requestAnimationFrame(drawFrame);`. -/
noncomputable def drawFrame (ts : ℝ) (s : ScopeState) : ScopeState :=
  if s.running = false then { s with lastTick := 0 }
  else
    let s1 := if ts ≠ 0 ∧ ts - s.lastTick > 250 then { s with lastTick := ts } else s
    { s1 with t := s1.t + dt0, pending := s1.pending + 1 }

/-- One pending frame callback fires at host timestamp `ts`: it is removed
from the pending set and `drawFrame` runs (possibly rescheduling). -/
noncomputable def fireFrame (ts : ℝ) (s : ScopeState) : ScopeState :=
  if s.pending = 0 then s else drawFrame ts { s with pending := s.pending - 1 }

/-- The interleavable events: the three scheduling-relevant button handlers,
the reset handler, and a frame callback firing. -/
inductive ScopeAct where
  | start
  | pause
  | safeStart
  | reset
  | frame (ts : ℝ)

noncomputable def stepAct (s : ScopeState) : ScopeAct → ScopeState
  | .start => startClick s
  | .pause => pauseClick s
  | .safeStart => safeStartClick s
  | .reset => resetClick s
  | .frame ts => fireFrame ts s

/-- Run a sequence of events from a state. -/
noncomputable def runActs (acts : List ScopeAct) (s : ScopeState) : ScopeState :=
  acts.foldl stepAct s

/-! ## Animation state of the `DualUniverseCanvas` component

`playing` is toggled by the Play/Pause button (`setPlaying((p) => !p)`), the
Reset button runs `setTime(0)`, and the animation-loop effect advances time
by `if (playing) setTime((t) => t + dt * speed)` with
`dt = Math.min(0.05, (now - last) / 1000)`. -/

structure CanvasState where
  playing : Bool
  time : ℝ

/-- The Play/Pause button: `setPlaying((p) => !p)`. -/
def togglePlaying (c : CanvasState) : CanvasState :=
  { c with playing := !c.playing }

/-- The Reset button: `setTime(0)`. -/
def resetTime (c : CanvasState) : CanvasState :=
  { c with time := 0 }

/-- One `tick` of the animation-loop effect:
`if (playing) setTime((t) => t + dt * speed)` with `dt = min(0.05, elapsed)`. -/
noncomputable def canvasTick (c : CanvasState) (elapsed speed : ℝ) : CanvasState :=
  let dt := min 0.05 elapsed
  if c.playing then { c with time := c.time + dt * speed } else c

/-! ## Local-storage persistence helpers of `src/unnamed/part_001`

```
function save(key, val) { try { localStorage.setItem(`fieldsig_${key}`, String(val)); } catch {} }
function loadNum(key, fallback) {
  try { const v = localStorage.getItem(`fieldsig_${key}`); return v == null ? fallback : Number(v); }
  catch { return fallback; }
}
function loadStr(key, fallback) { ... return v == null ? fallback : v; }
```

The browser storage is modelled as a store that can be unavailable (every
access throws, e.g. a security error) or quota-full (`setItem` throws,
`getItem` still works).  `Number(...)` is a host builtin, passed in as an
abstract `numOf` conversion. -/

structure Storage where
  available : Bool
  quotaFull : Bool
  data : String → Option String

/-- A raised-exception-or-value result of a storage primitive. -/
inductive StoreResult (α : Type) where
  | ok (a : α)
  | thrown

/-- `localStorage.getItem(key)`: throws when storage is unavailable. -/
def getItem (st : Storage) (key : String) : StoreResult (Option String) :=
  if st.available then .ok (st.data key) else .thrown

/-- `localStorage.setItem(key, val)`: throws when storage is unavailable or
its quota is exceeded. -/
def setItem (st : Storage) (key val : String) : StoreResult Storage :=
  if st.available && !st.quotaFull then
    .ok { st with data := fun k => if k = key then some val else st.data k }
  else .thrown

/-- `save(key, val)`: `try { localStorage.setItem(`fieldsig_${key}`, val) } catch {}` —
the catch block is empty, so a throwing store leaves the state unchanged and
returns nothing to the caller. -/
def save (st : Storage) (key val : String) : Storage :=
  match setItem st ("fieldsig_" ++ key) val with
  | .ok st' => st'
  | .thrown => st

/-- `loadNum(key, fallback)`: returns `fallback` when the read throws or the
key is absent, else `Number(v)`. -/
def loadNum (numOf : String → ℝ) (st : Storage) (key : String) (fallback : ℝ) : ℝ :=
  match getItem st ("fieldsig_" ++ key) with
  | .thrown => fallback
  | .ok none => fallback
  | .ok (some v) => numOf v

/-- `loadStr(key, fallback)`: returns `fallback` when the read throws or the
key is absent, else the stored string. -/
def loadStr (st : Storage) (key fallback : String) : String :=
  match getItem st ("fieldsig_" ++ key) with
  | .thrown => fallback
  | .ok none => fallback
  | .ok (some v) => v

/-! ## Helper lemmas about `drawCurve` -/

/-- The segment contributed by one sample and the sample after it, when both
are finite. -/
def adjSeg (x2px y2px : ℝ → ℝ) (a : ℝ × Option ℝ) : Option (ℝ × Option ℝ) → List (Pt × Pt)
  | some (x2, some y2) =>
      match a with
      | (x1, some y1) => [(⟨x2px x1, y2px y1⟩, ⟨x2px x2, y2px y2⟩)]
      | (_, none) => []
  | _ => []

lemma consecSegs_nil (x2px y2px : ℝ → ℝ) : consecSegs x2px y2px [] = [] := rfl

lemma adjSeg_arg_none (x2px y2px : ℝ → ℝ) (a : ℝ × Option ℝ) :
    adjSeg x2px y2px a none = [] := rfl

lemma adjSeg_fst_none (x2px y2px : ℝ → ℝ) (x1 : ℝ) (o : Option (ℝ × Option ℝ)) :
    adjSeg x2px y2px (x1, none) o = [] := by
  cases o with
  | none => rfl
  | some b =>
      obtain ⟨x2, oy2⟩ := b
      cases oy2 <;> rfl

lemma consecSegs_cons (x2px y2px : ℝ → ℝ) (a : ℝ × Option ℝ) (l : List (ℝ × Option ℝ)) :
    consecSegs x2px y2px (a :: l) = adjSeg x2px y2px a l.head? ++ consecSegs x2px y2px l := by
  obtain ⟨x1, oy1⟩ := a
  cases l with
  | nil => cases oy1 <;> simp [consecSegs, adjSeg]
  | cons b l' =>
      obtain ⟨x2, oy2⟩ := b
      cases oy1 <;> cases oy2 <;>
        simp [consecSegs, adjSeg, List.filterMap_cons]

/-- The segment contributed by the incoming pen state and the first sample,
when the pen is down and the sample is finite. -/
def headSeg (x2px y2px : ℝ → ℝ) (pen : Option Pt) : List (ℝ × Option ℝ) → List (Pt × Pt)
  | (x, some y) :: _ =>
      match pen with
      | some p => [(p, ⟨x2px x, y2px y⟩)]
      | none => []
  | _ => []

lemma headSeg_none (x2px y2px : ℝ → ℝ) (l : List (ℝ × Option ℝ)) :
    headSeg x2px y2px none l = [] := by
  cases l with
  | nil => rfl
  | cons a l' =>
      obtain ⟨x, oy⟩ := a
      cases oy <;> rfl

lemma headSeg_cons_none (x2px y2px : ℝ → ℝ) (pen : Option Pt) (x : ℝ)
    (l : List (ℝ × Option ℝ)) :
    headSeg x2px y2px pen ((x, none) :: l) = [] := by
  cases pen <;> rfl

/-- Characterization of the `drawCurve` loop: it emits the pen-to-first-sample
segment (when applicable) followed by one segment per adjacent pair of finite
samples. -/
lemma drawCurveSegs_eq (x2px y2px : ℝ → ℝ) (l : List (ℝ × Option ℝ)) :
    ∀ pen, drawCurveSegs x2px y2px l pen =
      headSeg x2px y2px pen l ++ consecSegs x2px y2px l := by
  induction l with
  | nil => intro pen; cases pen <;> rfl
  | cons a l' ih =>
      intro pen
      obtain ⟨x, oy⟩ := a
      cases oy with
      | none =>
          show drawCurveSegs x2px y2px l' none =
            headSeg x2px y2px pen ((x, none) :: l') ++ consecSegs x2px y2px ((x, none) :: l')
          rw [ih, headSeg_none, consecSegs_cons, headSeg_cons_none, adjSeg_fst_none]
          simp
      | some y =>
          have hhead : headSeg x2px y2px (some ⟨x2px x, y2px y⟩) l' =
              adjSeg x2px y2px (x, some y) l'.head? := by
            cases l' with
            | nil => rfl
            | cons b l'' =>
                obtain ⟨x2, oy2⟩ := b
                cases oy2 <;> rfl
          cases pen with
          | none =>
              show drawCurveSegs x2px y2px l' (some ⟨x2px x, y2px y⟩) =
                headSeg x2px y2px none ((x, some y) :: l') ++
                  consecSegs x2px y2px ((x, some y) :: l')
              rw [ih, hhead, headSeg_none, consecSegs_cons]
              simp
          | some p =>
              show (p, Pt.mk (x2px x) (y2px y)) ::
                  drawCurveSegs x2px y2px l' (some ⟨x2px x, y2px y⟩) =
                headSeg x2px y2px (some p) ((x, some y) :: l') ++
                  consecSegs x2px y2px ((x, some y) :: l')
              rw [ih, hhead, consecSegs_cons]
              rfl

lemma drawCurve_eq_consecSegs (x2px y2px : ℝ → ℝ) (l : List (ℝ × Option ℝ)) :
    drawCurve x2px y2px l = consecSegs x2px y2px l := by
  have h := drawCurveSegs_eq x2px y2px l none
  have hh : headSeg x2px y2px none l = [] := by
    cases l with
    | nil => simp [headSeg]
    | cons a l' =>
        obtain ⟨x, oy⟩ := a
        cases oy <;> simp [headSeg]
  simpa [drawCurve, hh] using h

lemma consecSegs_append_gap (x2px y2px : ℝ → ℝ) (pre post : List (ℝ × Option ℝ)) (xg : ℝ) :
    consecSegs x2px y2px (pre ++ (xg, none) :: post) =
      consecSegs x2px y2px pre ++ consecSegs x2px y2px post := by
  induction pre with
  | nil =>
      rw [List.nil_append, consecSegs_cons, adjSeg_fst_none, consecSegs_nil]
  | cons a pre' ih =>
      rw [List.cons_append, consecSegs_cons, consecSegs_cons, ih, List.append_assoc]
      congr 1
      cases pre' with
      | nil =>
          rw [List.nil_append, List.head?_cons]
          show adjSeg x2px y2px a (some (xg, none)) = adjSeg x2px y2px a none
          obtain ⟨x1, oy1⟩ := a
          cases oy1 <;> rfl
      | cons b pre'' => simp

/-! ## Claim theorems -/

/-- C1 (code bug witness): junction continuity fails on the code.  At the
default parameters (`splitX = 4`, `u1Amp = 0.9`, `u1Phase = 0.4`) and time
`t = 0`, the universe-1 branch evaluated at the split point differs from the
pre-split base value by exactly `0.9 * sin 0.4 ≈ 0.35`, which exceeds the
1e-9 tolerance the claim allows.  The sine term of `u1Y` does not vanish at
`dx = 0`, contradicting the comments in the source ("both universes start at
the exact base value at splitX"). -/
theorem junction_continuity_fails_at_split :
    u1Y defaultParams 4 0 - baseY defaultParams 4 0 = 0.9 * Real.sin 0.4 ∧
    (1e-9 : ℝ) < 0.9 * Real.sin 0.4 := by
  constructor
  · have hdx : max (0 : ℝ) (4 - 4) = 0 := by norm_num
    simp only [u1Y, junctionY, defaultParams, hdx]
    norm_num
  · have h1 : (0.4 : ℝ) - 0.4 ^ 3 / 4 < Real.sin 0.4 :=
      Real.sin_gt_sub_cube (by norm_num) (by norm_num)
    nlinarith [h1]

/-- C2: for every sampled `x` outside a branch's active domain
(`x > splitX` for the pre-split curve, `x < splitX` for a post-split
branch), the sampler the renderer hands to `drawCurve` returns the
non-finite sentinel (`none`, i.e. `Number.NaN`). -/
theorem out_of_domain_samples_are_nan (p : Params) (t x : ℝ) :
    (p.splitX < x → preSample p t x = none) ∧
    (x < p.splitX → u1Sample p t x = none ∧ u2Sample p t x = none) := by
  refine ⟨fun h => ?_, fun h => ⟨?_, ?_⟩⟩
  · simp [preSample, not_le.mpr h]
  · simp [u1Sample, not_le.mpr h]
  · simp [u2Sample, not_le.mpr h]

/-- Witness for C2 at the default parameters (`splitX = 4`): sampling the
pre-split curve at `x = 5` and the branches at `x = 3` yields the sentinel. -/
theorem out_of_domain_samples_are_nan_witness :
    preSample defaultParams 0 5 = none ∧
    u1Sample defaultParams 0 3 = none ∧ u2Sample defaultParams 0 3 = none :=
  ⟨(out_of_domain_samples_are_nan defaultParams 0 5).1 (by norm_num [defaultParams]),
   (out_of_domain_samples_are_nan defaultParams 0 3).2 (by norm_num [defaultParams])⟩

/-- C3: a non-finite sample breaks the polyline.  For any sequence of
samples containing a non-finite one, the segments drawn by `drawCurve` are
exactly the segments drawn for the samples before the gap followed by the
segments drawn for the samples after it: no segment connects the finite
samples on either side of the gap. -/
theorem nonfinite_sample_breaks_polyline (x2px y2px : ℝ → ℝ)
    (pre post : List (ℝ × Option ℝ)) (xg : ℝ) :
    drawCurve x2px y2px (pre ++ (xg, none) :: post) =
      drawCurve x2px y2px pre ++ drawCurve x2px y2px post := by
  rw [drawCurve_eq_consecSegs, drawCurve_eq_consecSegs, drawCurve_eq_consecSegs,
    consecSegs_append_gap]

/-- C4: the per-frame transform-reset-and-scale step of `render`
(`setTransform(1,0,0,1,0,0)` then `scale(dpr, dpr)`) is idempotent:
iterating it `n + 1` times from any accumulated transform yields the same
accumulated transform — and hence the same coordinate mapping — as applying
it once.  There is no compounding scale drift. -/
theorem transform_setup_idempotent (dpr : ℝ) (T : Transform) (n : ℕ) :
    (transformSetup dpr)^[n + 1] T = transformSetup dpr T ∧
    ∀ x y, applyTransform ((transformSetup dpr)^[n + 1] T) x y =
      applyTransform (transformSetup dpr T) x y := by
  have key : (transformSetup dpr)^[n + 1] T = transformSetup dpr T := by
    induction n with
    | zero => rw [Function.iterate_one]
    | succ k ih =>
        rw [Function.iterate_succ_apply', ih]
        rfl
  exact ⟨key, fun x y => by rw [key]⟩

/-- C5 (counterexample): two frame callbacks can be pending simultaneously.
Clicking start, then pause, then start again within one tick leaves two
scheduled callbacks, because the pause handler never cancels the pending
frame and the start guard only checks `running`; likewise safe-start
schedules unconditionally, so start followed by safe-start also leaves two. -/
theorem duplicate_pending_frames_reachable :
    (runActs [ScopeAct.start, ScopeAct.pause, ScopeAct.start] initScope).pending = 2 ∧
    (runActs [ScopeAct.start, ScopeAct.safeStart] initScope).pending = 2 :=
  ⟨rfl, rfl⟩

/-- Events that use only the guarded start handler and the frame callback. -/
def startOrFrame : ScopeAct → Prop
  | .start => True
  | .frame _ => True
  | _ => False

/-- The scheduling invariant of the guarded start handler: at most one frame
callback pending, and none pending while stopped. -/
def pendingInv (s : ScopeState) : Prop :=
  s.pending ≤ 1 ∧ (s.running = false → s.pending = 0)

lemma pendingInv_step (s : ScopeState) (a : ScopeAct) (hinv : pendingInv s)
    (ha : startOrFrame a) : pendingInv (stepAct s a) := by
  obtain ⟨h1, h2⟩ := hinv
  cases a with
  | start =>
      show pendingInv (startClick s)
      unfold startClick
      by_cases hr : s.running
      · simpa [hr] using ⟨h1, h2⟩
      · have hp : s.pending = 0 := h2 (by simpa using hr)
        simp [hr, pendingInv, hp]
  | pause => exact absurd ha (by simp [startOrFrame])
  | safeStart => exact absurd ha (by simp [startOrFrame])
  | reset => exact absurd ha (by simp [startOrFrame])
  | frame ts =>
      show pendingInv (fireFrame ts s)
      unfold fireFrame
      by_cases hp : s.pending = 0
      · simpa [hp] using ⟨h1, h2⟩
      · rw [if_neg hp]
        unfold drawFrame
        by_cases hr : s.running = false
        · exact absurd (h2 hr) hp
        · have hpend : s.pending = 1 := le_antisymm h1 (Nat.one_le_iff_ne_zero.mpr hp)
          rw [if_neg (by simpa using hr)]
          constructor
          · split <;> simp [hpend]
          · intro hfalse
            exact absurd (by split at hfalse <;> simpa using hfalse) hr

lemma pendingInv_runActs (acts : List ScopeAct) :
    ∀ s : ScopeState, pendingInv s → (∀ a ∈ acts, startOrFrame a) →
      pendingInv (runActs acts s) := by
  induction acts with
  | nil => intro s hs _; exact hs
  | cons a rest ih =>
      intro s hs hacts
      have h1 : startOrFrame a := hacts a (List.mem_cons_self a rest)
      have h2 : ∀ b ∈ rest, startOrFrame b := fun b hb => hacts b (List.mem_cons_of_mem a hb)
      exact ih (stepAct s a) (pendingInv_step s a hs h1) h2

/-- C5 (amended): restricted to interleavings of the guarded start handler
and the frame callback — with no pause while a frame is pending and no use
of the unguarded safe-start handler — at most one frame callback is ever
pending: the `if(!running)` guard of the start handler prevents duplicate
scheduling, and a firing frame reschedules at most itself. -/
theorem start_frame_interleavings_single_pending (acts : List ScopeAct)
    (hacts : ∀ a ∈ acts, startOrFrame a) :
    (runActs acts initScope).pending ≤ 1 := by
  have hinit : pendingInv initScope := by
    constructor
    · show (0 : ℕ) ≤ 1
      norm_num
    · intro _
      rfl
  exact (pendingInv_runActs acts initScope hinit hacts).1

/-- Witness for the amended C5: the concrete interleaving start, frame
fired at timestamp 17, start again leaves at most one callback pending. -/
theorem start_frame_interleavings_single_pending_witness :
    (runActs [ScopeAct.start, ScopeAct.frame 17, ScopeAct.start] initScope).pending ≤ 1 :=
  start_frame_interleavings_single_pending
    [ScopeAct.start, ScopeAct.frame 17, ScopeAct.start]
    (by
      intro a ha
      simp only [List.mem_cons, List.not_mem_nil, or_false] at ha
      rcases ha with h | h | h <;> subst h <;> trivial)

/-- C6: pausing and restarting preserve the accumulated time.  In `app.js`,
toggling `running` true, false, true via the pause and start handlers leaves
`t` (and every other field except `running` and the scheduling counter)
unchanged, and only the reset handler sets `t` back to zero.  Likewise in
the canvas component, toggling `playing` and ticking while paused leave
`time` unchanged, and only the Reset button sets `time` to zero. -/
theorem pause_start_preserve_time (s : ScopeState) (c : CanvasState) (elapsed speed : ℝ) :
    (startClick (pauseClick s)).t = s.t ∧
    (startClick (pauseClick s)).running = true ∧
    (pauseClick s).running = false ∧
    (pauseClick s).t = s.t ∧ (pauseClick s).glow = s.glow ∧ (pauseClick s).jam = s.jam ∧
    (pauseClick s).noise = s.noise ∧ (pauseClick s).f1 = s.f1 ∧ (pauseClick s).f2 = s.f2 ∧
    (pauseClick s).phase = s.phase ∧ (pauseClick s).lastTick = s.lastTick ∧
    (pauseClick s).pending = s.pending ∧
    (startClick s).t = s.t ∧ (startClick s).glow = s.glow ∧ (startClick s).jam = s.jam ∧
    (startClick s).noise = s.noise ∧ (startClick s).f1 = s.f1 ∧ (startClick s).f2 = s.f2 ∧
    (startClick s).phase = s.phase ∧ (startClick s).lastTick = s.lastTick ∧
    (resetClick s).t = 0 ∧ (resetClick s).running = s.running ∧
    (resetClick s).pending = s.pending ∧
    (togglePlaying (togglePlaying c)).time = c.time ∧
    (togglePlaying c).time = c.time ∧
    (resetTime c).time = 0 ∧
    (canvasTick { c with playing := false } elapsed speed).time = c.time := by
  by_cases hr : s.running <;>
    simp [startClick, pauseClick, resetClick, togglePlaying, resetTime, canvasTick, hr]

/-- C7: the denominator `Math.max(1e-6, xMax - splitX)` of the normalized
phase term inside both branch functions is clamped below by `1e-6` for every
parameter setting, so it is strictly positive and never zero: the branch
evaluation never divides by zero, even when the post-split domain width
`xMax - splitX` is zero or negative. -/
theorem branch_denominator_clamped (p : Params) :
    (1e-6 : ℝ) ≤ branchDenom p ∧ 0 < branchDenom p ∧ branchDenom p ≠ 0 := by
  have h : (1e-6 : ℝ) ≤ branchDenom p := le_max_left _ _
  have hpos : (0 : ℝ) < branchDenom p := lt_of_lt_of_le (by norm_num) h
  exact ⟨h, hpos, ne_of_gt hpos⟩

/-- Witness for C7 at a degenerate parameter setting: with the post-split
domain width forced to zero (`xMax = splitX = 4`), the denominator is still
clamped to at least `1e-6` and is nonzero. -/
theorem branch_denominator_clamped_witness :
    (1e-6 : ℝ) ≤ branchDenom { defaultParams with xMax := 4 } ∧
    0 < branchDenom { defaultParams with xMax := 4 } ∧
    branchDenom { defaultParams with xMax := 4 } ≠ 0 :=
  branch_denominator_clamped { defaultParams with xMax := 4 }

/-- C8: with phase `π/3` (and the scenario frequency `1.2`), the sampled
base value at `x = 0`, `t = 0` equals `amplitude * sin(phase)`: the
frequency term vanishes because `x / xMax = 0` and the time drift vanishes
because `0.6 * t = 0`. -/
theorem base_value_at_zero_is_amp_sin_phase (p : Params)
    (_hf : p.baseFreq = 1.2) (hp : p.basePhase = Real.pi / 3) :
    baseY p 0 0 = p.baseAmp * Real.sin (Real.pi / 3) := by
  simp [baseY, hp]

/-- Witness for C8: the scenario parameters (defaults with frequency 1.2 and
phase `π/3`) evaluated at `x = 0`, `t = 0`. -/
theorem base_value_at_zero_is_amp_sin_phase_witness :
    baseY { defaultParams with baseFreq := 1.2, basePhase := Real.pi / 3 } 0 0 =
      ({ defaultParams with baseFreq := 1.2, basePhase := Real.pi / 3 } : Params).baseAmp *
        Real.sin (Real.pi / 3) :=
  base_value_at_zero_is_amp_sin_phase _ rfl rfl

/-- C9: parameter persistence is best-effort.  When local storage is
unavailable (every access throws), `save` leaves the store unchanged and
surfaces no error, and `loadNum`/`loadStr` return the supplied fallback
defaults; when only the write throws (quota exceeded), `save` is likewise a
no-op. -/
theorem storage_errors_swallowed (numOf : String → ℝ) (st : Storage)
    (key val fallbackStr : String) (fallbackNum : ℝ) :
    (st.available = false →
      save st key val = st ∧
      loadNum numOf st key fallbackNum = fallbackNum ∧
      loadStr st key fallbackStr = fallbackStr) ∧
    (st.quotaFull = true → save st key val = st) := by
  constructor
  · intro h
    refine ⟨?_, ?_, ?_⟩ <;> simp [save, setItem, loadNum, loadStr, getItem, h]
  · intro h
    simp [save, setItem, h]

/-- Witness for C9: an unavailable store swallows the write of `gain` and
reads back fall back to the supplied defaults; a quota-full store swallows
the write as well. -/
theorem storage_errors_swallowed_witness :
    (save ⟨false, false, fun _ => none⟩ "gain" "0.5" = ⟨false, false, fun _ => none⟩ ∧
      loadNum (fun _ => 0) ⟨false, false, fun _ => none⟩ "gain" 0.35 = 0.35 ∧
      loadStr ⟨false, false, fun _ => none⟩ "gain" "sine" = "sine") ∧
    save ⟨true, true, fun _ => none⟩ "pan" "0" = ⟨true, true, fun _ => none⟩ :=
  ⟨(storage_errors_swallowed (fun _ => 0) ⟨false, false, fun _ => none⟩ "gain" "0.5" "sine" 0.35).1 rfl,
   (storage_errors_swallowed (fun _ => 0) ⟨true, true, fun _ => none⟩ "pan" "0" "sine" 0.35).2 rfl⟩

/-- C10: the branch functions themselves are total.  For every `x` — in
particular `x` strictly below the split point — `u1Y` and `u2Y` return a
real number: the clamp `dx = max(0, x - splitX)` makes any `x ≤ splitX`
evaluate exactly like the split point itself, and the `NaN` sentinel for
out-of-domain samples is injected only by the wrapper lambdas of `render`,
which pass the branch value through unchanged whenever `x ≥ splitX`. -/
theorem branch_functions_total_below_split (p : Params) (x t : ℝ) :
    (x ≤ p.splitX → u1Y p x t = u1Y p p.splitX t ∧ u2Y p x t = u2Y p p.splitX t) ∧
    (p.splitX ≤ x → u1Sample p t x = some (u1Y p x t) ∧
      u2Sample p t x = some (u2Y p x t)) := by
  constructor
  · intro h
    have hdx : max 0 (x - p.splitX) = (0 : ℝ) := max_eq_left (sub_nonpos.mpr h)
    have hdx0 : max 0 (p.splitX - p.splitX) = (0 : ℝ) := by simp
    constructor <;> simp [u1Y, u2Y, hdx, hdx0]
  · intro h
    exact ⟨by simp [u1Sample, h], by simp [u2Sample, h]⟩

/-- Witness for C10 at the default parameters: `x = 0` lies strictly below
the split point 4, yet both branch functions return the same real value as
at the split point itself, and at `x = 5` the wrappers pass the branch
values through. -/
theorem branch_functions_total_below_split_witness :
    (u1Y defaultParams 0 0 = u1Y defaultParams 4 0 ∧
      u2Y defaultParams 0 0 = u2Y defaultParams 4 0) ∧
    (u1Sample defaultParams 0 5 = some (u1Y defaultParams 5 0) ∧
      u2Sample defaultParams 0 5 = some (u2Y defaultParams 5 0)) :=
  ⟨(branch_functions_total_below_split defaultParams 0 0).1 (by norm_num [defaultParams]),
   (branch_functions_total_below_split defaultParams 5 0).2 (by norm_num [defaultParams])⟩

end QMC
